import Mathlib

/-!
Verification of the DocuRAG application layer.

Shallow embedding of the request handlers and pure helpers of the
repository: the hallucination heuristic and confidence computation
(`src/lib/llm.ts`, `src/lib/utils.ts`), the query handler
(`src/app/api/query/route.ts`), the upload handler (same file, second
route), the document listing/deletion handlers
(`src/app/api/documents/route.ts`), the processing webhook
(`src/app/api/process/route.ts`) and the rate limiter
(`src/lib/rate-limit.ts`).

Strings are embedded as `String`/`List Char`; similarity scores (JS
numbers) as `ℚ`; external calls (auth, database lookups, embedding,
vector search, LLM generation) are inputs of an environment record, and
the side effects a handler performs are returned as an explicit event
trace.
-/

namespace DocuRAG

/-! ### Basic string machinery (JS `toLowerCase`, `includes`) -/

/-- Character-wise ASCII lowercasing, modelling `String.prototype.toLowerCase`. -/
def lower (s : List Char) : List Char := s.map Char.toLower

/-- `hay.includes(needle)`: Boolean substring test, scanning every suffix. -/
def containsSub : List Char → List Char → Bool
  | [], needle => needle.isEmpty
  | h :: t, needle => needle.isPrefixOf (h :: t) || containsSub t needle

/-- `needle` occurs as a contiguous segment of `hay`. -/
def SubSeg (needle hay : List Char) : Prop :=
  ∃ pre post, hay = pre ++ needle ++ post

/-- Strip leading and trailing whitespace from a character list. -/
def trimChars (l : List Char) : List Char :=
  ((l.dropWhile Char.isWhitespace).reverse.dropWhile Char.isWhitespace).reverse

/-- `s.trim()`: ASCII whitespace trimming at both ends. -/
def jsTrim (s : String) : String := ⟨trimChars s.data⟩

/-- Accumulator-style splitting of a character list at every space. -/
def splitSpaceAux : List Char → List Char → List String
  | [], acc => [⟨acc.reverse⟩]
  | c :: cs, acc =>
    if c = ' ' then ⟨acc.reverse⟩ :: splitSpaceAux cs [] else splitSpaceAux cs (c :: acc)

/-- `s.split(' ')`: split at every single space, keeping empty segments. -/
def splitSpace (s : String) : List String := splitSpaceAux s.data []

/-! ### The numeric-token scanner of `detectPotentialHallucination`

`answer.match(/\d+(\.\d+)?(%|percent|million|billion|thousand)?/gi)`:
successive leftmost matches; each match is a maximal digit run, an
optional decimal part (a dot followed by at least one digit), and an
optional case-insensitive suffix word. -/

/-- The suffix alternatives of the regex, in alternation order. -/
def numSuffixes : List (List Char) :=
  [['%'], "percent".data, "million".data, "billion".data, "thousand".data]

/-- Match the optional `(\.\d+)?` group at the front of `l`:
returns the matched text and the rest. -/
def tryDecimal (l : List Char) : List Char × List Char :=
  match l with
  | '.' :: rest =>
    let ds := rest.takeWhile Char.isDigit
    if ds.isEmpty then ([], l) else ('.' :: ds, rest.dropWhile Char.isDigit)
  | _ => ([], l)

/-- Match the optional suffix group at the front of `l`, case-insensitively,
first alternative wins: returns the matched text and the rest. -/
def trySuffix (l : List Char) : List Char × List Char :=
  match numSuffixes.find? (fun s => s.isPrefixOf (lower l)) with
  | some s => (l.take s.length, l.drop s.length)
  | none => ([], l)

/-- Match one full numeric token at the front of `l` (leading char must be a
digit for this to be a real match): maximal digits, optional decimal part,
optional suffix. Returns the token and the rest of the input. -/
def matchNumToken (l : List Char) : List Char × List Char :=
  let ds := l.takeWhile Char.isDigit
  let r1 := l.dropWhile Char.isDigit
  let dec := tryDecimal r1
  let suf := trySuffix dec.2
  (ds ++ dec.1 ++ suf.1, suf.2)

/-- Fueled global scan: at each position, if a digit starts, emit the
numeric token matched there and continue after it; otherwise advance one
character. The fuel is always at least the input length, which suffices
since every emitted token consumes at least one character. -/
def scanTokensAux : Nat → List Char → List (List Char)
  | 0, _ => []
  | _ + 1, [] => []
  | fuel + 1, c :: cs =>
    if c.isDigit then
      let m := matchNumToken (c :: cs)
      m.1 :: scanTokensAux fuel m.2
    else
      scanTokensAux fuel cs

/-- All numeric tokens of `l`, in order: `l.match(/\d+(\.\d+)?(%|percent|million|billion|thousand)?/gi) || []`. -/
def scanTokens (l : List Char) : List (List Char) := scanTokensAux l.length l

/-! ### `detectPotentialHallucination` (src/lib/llm.ts) -/

/-- The absolute-certainty word list of the source. -/
def strongAssertions : List (List Char) :=
  ["always".data, "never".data, "exactly".data, "precisely".data, "definitely".data]

/-- `contexts.map(c => c.content.toLowerCase()).join(' ')`. -/
def joinSpace (ls : List (List Char)) : List Char := (ls.intersperse [' ']).flatten

/-- `detectPotentialHallucination(answer, contexts)` from `src/lib/llm.ts`:
fires if some numeric token of the answer is not a substring of the
lowercased space-joined context, or if a strong-assertion word occurs in
the lowercased answer but not in that context text. -/
def detectPotentialHallucination (answer : List Char) (contexts : List (List Char)) : Bool :=
  let answerLower := lower answer
  let contextText := joinSpace (contexts.map lower)
  ((scanTokens answer).any fun num => ! containsSub contextText (lower num)) ||
  (strongAssertions.any fun a => containsSub answerLower a && ! containsSub contextText a)

/-! ### `getConfidenceLevel` (src/lib/utils.ts) -/

/-- The three-level confidence label. -/
inductive Confidence
  | High
  | Medium
  | Low
  deriving DecidableEq, Repr

/-- The string the label serializes to in responses and rows. -/
def Confidence.asString : Confidence → String
  | .High => "High"
  | .Medium => "Medium"
  | .Low => "Low"

/-- `getConfidenceLevel(score)` from `src/lib/utils.ts`. -/
def getConfidenceLevel (score : ℚ) : Confidence :=
  if score ≥ 85/100 then .High
  else if score ≥ 7/10 then .Medium
  else .Low

/-! ### Shared request plumbing -/

/-- Result of `checkRateLimit` (src/lib/rate-limit.ts): `success` plus the
optional quota hints of the underlying limiter. -/
structure RateLimitResult where
  success : Bool
  limit : Option Nat
  remaining : Option Nat
  reset : Option Nat
  deriving DecidableEq, Repr

/-- Body of a 429 response: the error string and whichever of the two
quota hints the handler chose to include. -/
structure RateLimitBody where
  error : String
  remaining : Option Nat
  reset : Option Nat
  deriving DecidableEq, Repr

/-- A row of the `users` table, as far as the handlers read it. -/
structure UserRow where
  id : String
  clerkId : String
  email : String
  deriving DecidableEq, Repr

/-! ### Query handler (src/app/api/query/route.ts, first route) -/

/-- Payload of one vector-search hit, as stored in the vector store. -/
structure SearchPayload where
  doc_id : String
  chunk_id : String
  content : String
  page : Option Nat
  deriving DecidableEq, Repr

/-- One vector-search result: a similarity score and its payload. -/
structure SearchResult where
  score : ℚ
  payload : SearchPayload
  deriving DecidableEq, Repr

/-- A cited source as persisted and streamed (`QuerySource` in the code). -/
structure QuerySource where
  docId : String
  chunkId : String
  score : ℚ
  page : Option Nat
  text : String
  fileName : Option String
  deriving DecidableEq, Repr

/-- The `queries` row the handler inserts. -/
structure QueryRow where
  userId : String
  query : String
  answer : String
  sources : List QuerySource
  confidence : Confidence
  tokenCount : Nat
  latencyMs : Nat
  documentIds : List String
  deriving DecidableEq, Repr

/-- External side effects of the query handler, in execution order. -/
inductive QEvent
  | embed (text : String)
  | search (userId : String)
  | generate (query : String)
  | persist (row : QueryRow)
  deriving DecidableEq, Repr

/-- Responses the query handler can produce. -/
inductive QueryResponse
  | unauthorized
  | rateLimited (body : RateLimitBody)
  | badRequest (msg : String)
  | notFound (msg : String)
  | stream (body : String)
  deriving DecidableEq, Repr

/-- The fixed canned answer of the zero-results branch. -/
def noResultsAnswer : String :=
  "I couldn't find any relevant information in your documents to answer this question. Please try rephrasing your question or upload more relevant documents."

/-- One formatted source: payload fields, score, a 300-character excerpt,
and the file-name lookup from the documents table. -/
def mkSource (fileName : String → Option String) (r : SearchResult) : QuerySource :=
  { docId := r.payload.doc_id
    chunkId := r.payload.chunk_id
    score := r.score
    page := r.payload.page
    text := r.payload.content.take 300
    fileName := fileName r.payload.doc_id }

/-- A JSON string literal. Escaping of special characters inside the string
is not modelled; no claim depends on it. -/
def jsonString (s : String) : String := "\"" ++ s ++ "\""

/-- `JSON.stringify` of one source object. Number rendering approximates the
JS float formatting; no claim depends on the non-empty serialization. -/
def jsonOfSource (s : QuerySource) : String :=
  "\x7b" ++ jsonString "docId" ++ ":" ++ jsonString s.docId
  ++ "," ++ jsonString "chunkId" ++ ":" ++ jsonString s.chunkId
  ++ "," ++ jsonString "score" ++ ":" ++ toString s.score
  ++ (match s.page with | some p => "," ++ jsonString "page" ++ ":" ++ toString p | none => "")
  ++ "," ++ jsonString "text" ++ ":" ++ jsonString s.text
  ++ (match s.fileName with | some f => "," ++ jsonString "fileName" ++ ":" ++ jsonString f | none => "")
  ++ "\x7d"

/-- `JSON.stringify(sources)`: `[]` on the empty list. -/
def jsonStringifySources (l : List QuerySource) : String :=
  "[" ++ String.intercalate "," (l.map jsonOfSource) ++ "]"

/-- The full text delivered over the stream: every word of the answer
followed by a space, then the sources marker line and the confidence
marker line. -/
def streamBody (answer : String) (srcJson : String) (conf : Confidence) : String :=
  String.join ((splitSpace answer).map (· ++ " "))
  ++ "\n\n__SOURCES__:" ++ srcJson ++ "\n__CONFIDENCE__:" ++ conf.asString ++ "\n"

/-- Mean similarity of the retrieved set:
`searchResults.reduce((sum, r) => sum + r.score, 0) / searchResults.length`. -/
def ragMean (results : List SearchResult) : ℚ :=
  (results.map (·.score)).sum / results.length

/-- Environment of one query request: outcomes of the external calls the
handler makes, in the order it makes them. -/
structure QueryEnv where
  clerkId : Option String
  rateLimit : RateLimitResult
  query : Option String
  documentIds : Option (List String)
  user : Option UserRow
  searchResults : List SearchResult
  genAnswer : String
  genTokens : Nat
  fileName : String → Option String
  latencyMs : Nat

/-- `POST /api/query`: authentication, rate limit, validation, user lookup,
embedding, vector search, zero-results short circuit or generation plus
confidence computation, persistence and streaming. Returns the response
and the trace of external side effects. -/
def queryPOST (env : QueryEnv) : QueryResponse × List QEvent :=
  match env.clerkId with
  | none => (.unauthorized, [])
  | some _ =>
    if env.rateLimit.success = false then
      (.rateLimited ⟨"Rate limit exceeded. Please try again later.", env.rateLimit.remaining, none⟩, [])
    else
      match env.query with
      | none => (.badRequest "Query is required", [])
      | some q =>
        if (jsTrim q).length = 0 then (.badRequest "Query is required", [])
        else
          match env.user with
          | none => (.notFound "User not found", [])
          | some user =>
            let qt := jsTrim q
            if env.searchResults.isEmpty then
              let row : QueryRow :=
                { userId := user.id, query := qt, answer := noResultsAnswer, sources := []
                  confidence := .Low, tokenCount := 0, latencyMs := env.latencyMs
                  documentIds := env.documentIds.getD [] }
              (.stream (streamBody noResultsAnswer "[]" .Low),
               [.embed qt, .search user.id, .persist row])
            else
              let contexts := env.searchResults.map (·.payload.content)
              let answer := env.genAnswer
              let avgScore := ragMean env.searchResults
              let hasHallucination :=
                detectPotentialHallucination answer.data (contexts.map String.data)
              let confidence := if hasHallucination then .Low else getConfidenceLevel avgScore
              let sources := env.searchResults.map (mkSource env.fileName)
              let row : QueryRow :=
                { userId := user.id, query := qt, answer := answer, sources := sources
                  confidence := confidence, tokenCount := env.genTokens
                  latencyMs := env.latencyMs, documentIds := env.documentIds.getD [] }
              (.stream (streamBody answer (jsonStringifySources sources) confidence),
               [.embed qt, .search user.id, .generate qt, .persist row])

/-! ### Upload handler (src/app/api/query/route.ts, second route) and
constants (src/config/constants.ts) -/

/-- `MAX_FILE_SIZE = 50 * 1024 * 1024`. -/
def MAX_FILE_SIZE : Nat := 50 * 1024 * 1024

/-- `ALLOWED_FILE_TYPES` allow-list. -/
def ALLOWED_FILE_TYPES : List String :=
  [ "application/pdf"
  , "text/plain"
  , "text/markdown"
  , "application/msword"
  , "application/vnd.openxmlformats-officedocument.wordprocessingml.document" ]

/-- JS truthiness of an optional string: `undefined`/`null` and `""` are falsy. -/
def jsTruthy : Option String → Bool
  | none => false
  | some s => !(s == "")

/-- The uploaded file as the handler reads it from the form data. -/
structure FileInfo where
  name : String
  size : Nat
  mime : String
  deriving DecidableEq, Repr

/-- The identity-provider user record consulted on lazy user creation. -/
structure ClerkUserInfo where
  emailAddresses : List String
  firstName : Option String
  lastName : Option String
  imageUrl : Option String
  deriving DecidableEq, Repr

/-- External side effects of the upload handler, in execution order. -/
inductive UpEvent
  | userInsert (clerkId : String) (email : String) (name : Option String)
  | storageWrite (userId : String) (fileName : String)
  | docInsert (userId : String) (fileName : String) (fileSize : Nat)
      (mimeType : String) (storageUrl : String) (status : String)
  | workerNotify (docId : String)
  deriving DecidableEq, Repr

/-- Responses the upload handler can produce. -/
inductive UploadResponse
  | unauthorized
  | rateLimited (body : RateLimitBody)
  | badRequest (msg : String)
  | ok (id : String) (status : String) (message : String)
  deriving DecidableEq, Repr

/-- Environment of one upload request. -/
structure UploadEnv where
  clerkId : Option String
  rateLimit : RateLimitResult
  file : Option FileInfo
  existingUser : Option UserRow
  clerkUser : Option ClerkUserInfo
  newUserId : String
  storageUrl : String
  docId : String
  workerConfigured : Bool
  deriving Repr

/-- `clerkUser?.emailAddresses?.[0]?.emailAddress`. -/
def clerkEmailOpt (env : UploadEnv) : Option String :=
  match env.clerkUser with
  | none => none
  | some cu => cu.emailAddresses.head?

/-- The display name for a lazily created user:
`firstName ? firstName + (lastName ? ' ' + lastName : '') : null`. -/
def clerkDisplayName (cu : ClerkUserInfo) : Option String :=
  if jsTruthy cu.firstName then
    some ((cu.firstName.getD "") ++
      (if jsTruthy cu.lastName then " " ++ cu.lastName.getD "" else ""))
  else none

/-- The 400 message of the size check:
`File too large. Maximum size is ${MAX_FILE_SIZE / (1024 * 1024)}MB.` -/
def uploadSizeErrorMsg : String := "File too large. Maximum size is 50MB."

/-- The 400 message of the type check. -/
def uploadTypeErrorMsg : String := "Invalid file type. Allowed types: PDF, TXT, MD, DOC, DOCX."

/-- The 400 message of the missing-email branch. -/
def uploadEmailErrorMsg : String := "Unable to retrieve user email from authentication provider."

/-- The effects and success response after a user row is available:
storage write, document insert with status `processing`, best-effort
worker notification. -/
def uploadProceed (env : UploadEnv) (file : FileInfo) (userId : String)
    (priorEvents : List UpEvent) : UploadResponse × List UpEvent :=
  let events := priorEvents
    ++ [.storageWrite userId file.name,
        .docInsert userId file.name file.size file.mime env.storageUrl "processing"]
    ++ (if env.workerConfigured then [.workerNotify env.docId] else [])
  (.ok env.docId "processing" "Document uploaded successfully and is being processed.", events)

/-- `POST /api/upload`: authentication, rate limit, file presence, size and
type validation, lazy user creation from the identity provider, storage
write, document insert, best-effort worker notification. -/
def uploadPOST (env : UploadEnv) : UploadResponse × List UpEvent :=
  match env.clerkId with
  | none => (.unauthorized, [])
  | some cid =>
    if env.rateLimit.success = false then
      (.rateLimited ⟨"Rate limit exceeded. Please try again later.",
        env.rateLimit.remaining, env.rateLimit.reset⟩, [])
    else
      match env.file with
      | none => (.badRequest "No file provided", [])
      | some file =>
        if file.size > MAX_FILE_SIZE then
          (.badRequest uploadSizeErrorMsg, [])
        else if !(ALLOWED_FILE_TYPES.contains file.mime) then
          (.badRequest uploadTypeErrorMsg, [])
        else
          match env.existingUser with
          | some user => uploadProceed env file user.id []
          | none =>
            let userEmail := clerkEmailOpt env
            if !(jsTruthy userEmail) then
              (.badRequest uploadEmailErrorMsg, [])
            else
              let email := userEmail.getD ""
              let name := (env.clerkUser.map clerkDisplayName).getD none
              uploadProceed env file env.newUserId [.userInsert cid email name]

/-! ### Document listing and deletion (src/app/api/documents/route.ts) -/

/-- A row of the `documents` table, as far as the handlers read it. -/
structure ListDocRow where
  id : String
  userId : String
  fileName : String
  fileSize : Nat
  mimeType : String
  status : String
  storageUrl : String
  chunkCount : Option Int
  createdAt : Nat
  updatedAt : Nat
  errorMessage : Option String
  deriving DecidableEq, Repr

/-- The listing response omits the owner id; `createdAt.toISOString()` is
modelled as the timestamp itself. -/
structure FormattedDoc where
  id : String
  fileName : String
  fileSize : Nat
  mimeType : String
  status : String
  chunkCount : Option Int
  createdAt : Nat
  updatedAt : Nat
  errorMessage : Option String
  deriving DecidableEq, Repr

/-- The projection from a row to its listing summary. -/
def formatDoc (d : ListDocRow) : FormattedDoc :=
  { id := d.id, fileName := d.fileName, fileSize := d.fileSize
    mimeType := d.mimeType, status := d.status, chunkCount := d.chunkCount
    createdAt := d.createdAt, updatedAt := d.updatedAt
    errorMessage := d.errorMessage }

/-- `select from users where clerkId = cid limit 1`. -/
def userForClerk (usersTable : List UserRow) (cid : String) : Option UserRow :=
  (usersTable.filter (fun u => u.clerkId == cid)).head?

/-- The rows the listing query fetches: the caller's documents ordered
newest-first, then `OFFSET (page-1)*limit LIMIT limit`. The offset is
clamped at zero (Nat subtraction); a negative SQL offset would instead
error, which no claim depends on. -/
def listSelectedRows (docsTable : List ListDocRow) (userId : String)
    (page limit : Nat) : List ListDocRow :=
  ((((docsTable.filter (fun d => d.userId == userId)).mergeSort
      (fun a b => decide (b.createdAt ≤ a.createdAt))).drop
    ((page - 1) * limit)).take limit)

/-- Responses of the listing handler; a caller with no user row gets a bare
empty `documents` array. -/
inductive ListResponse
  | unauthorized
  | okNoUser
  | ok (documents : List FormattedDoc) (page limit : Nat)
  deriving DecidableEq, Repr

/-- `GET /api/documents`. -/
def documentsGET (usersTable : List UserRow) (docsTable : List ListDocRow)
    (clerkId : Option String) (page limit : Nat) : ListResponse :=
  match clerkId with
  | none => .unauthorized
  | some cid =>
    match userForClerk usersTable cid with
    | none => .okNoUser
    | some user =>
      .ok ((listSelectedRows docsTable user.id page limit).map formatDoc) page limit

/-- A row of the `chunks` table, as far as deletion cascading reads it. -/
structure ChunkRow where
  id : String
  documentId : String
  deriving DecidableEq, Repr

/-- The relational state the deletion handler touches. -/
structure DBState where
  documentsTable : List ListDocRow
  chunksTable : List ChunkRow
  deriving DecidableEq, Repr

/-- Attempted external deletions, in execution order. -/
inductive DelEvent
  | storageDelete (url : String)
  | vectorDelete (userId : String) (docId : String)
  deriving DecidableEq, Repr

/-- Responses of the deletion handler. -/
inductive DeleteResponse
  | unauthorized
  | badRequest (msg : String)
  | notFound (msg : String)
  | ok (message : String)
  deriving DecidableEq, Repr

/-- `DELETE /api/documents?id=...`: authentication, id presence, user
lookup, ownership check, best-effort storage and vector deletions (their
failures are caught and only logged), then the relational delete, which
cascades to the chunks of the deleted document row. `storageThrows` and
`vectorThrows` say whether the two external calls throw. -/
def documentsDELETE (usersTable : List UserRow) (clerkId : Option String)
    (docIdParam : Option String) (_storageThrows _vectorThrows : Bool)
    (st : DBState) : DeleteResponse × DBState × List DelEvent :=
  match clerkId with
  | none => (.unauthorized, st, [])
  | some cid =>
    match docIdParam with
    | none => (.badRequest "Document ID required", st, [])
    | some docId =>
      match userForClerk usersTable cid with
      | none => (.notFound "User not found", st, [])
      | some user =>
        match (st.documentsTable.filter
            (fun d => d.id == docId && d.userId == user.id)).head? with
        | none => (.notFound "Document not found", st, [])
        | some doc =>
          -- both external deletes are attempted; a throw is caught and ignored
          let events := [DelEvent.storageDelete doc.storageUrl,
                         DelEvent.vectorDelete user.id docId]
          -- delete from documents where id = docId; chunks cascade with the
          -- removed row (foreign-key integrity ties them to exactly that row)
          let docsLeft := st.documentsTable.filter (fun d => !(d.id == docId))
          let chunksLeft := st.chunksTable.filter (fun c => !(c.documentId == docId))
          (.ok "Document deleted successfully", ⟨docsLeft, chunksLeft⟩, events)

/-! ### Processing webhook (src/app/api/process/route.ts) -/

/-- The JSON payload of a status update. `chunk_count` is `some n` when the
field is a number; `status`/`error_message` are `none` when absent. -/
structure ProcPayload where
  document_id : Option String
  status : Option String
  chunk_count : Option Int
  error_message : Option String
  deriving DecidableEq, Repr

/-- A document row as the webhook updates it. -/
structure ProcDocRow where
  id : String
  status : String
  chunkCount : Option Int
  errorMessage : Option String
  updatedAt : Nat
  deriving DecidableEq, Repr

/-- The accepted status values. -/
def validStatuses : List String := ["processing", "ready", "failed"]

/-- The field-wise update the webhook applies to one row: `updatedAt` is
always set to now; `status`, `chunkCount` and `errorMessage` only when
supplied (`status` and `error_message` only when truthy). -/
def applyUpdate (p : ProcPayload) (now : Nat) (d : ProcDocRow) : ProcDocRow :=
  { d with
    updatedAt := now
    status := if jsTruthy p.status then p.status.getD d.status else d.status
    chunkCount := match p.chunk_count with | some n => some n | none => d.chunkCount
    errorMessage := if jsTruthy p.error_message then p.error_message else d.errorMessage }

/-- Responses of the webhook. -/
inductive ProcResponse
  | unauthorized
  | badRequest (msg : String)
  | ok (message : String)
  deriving DecidableEq, Repr

/-- `POST /api/process`: shared-secret check (enforced only when a secret
is configured), payload validation, then an update of every row whose id
matches `document_id`. -/
def processPOST (workerSecret : Option String) (header : Option String)
    (p : ProcPayload) (now : Nat) (docs : List ProcDocRow) :
    ProcResponse × List ProcDocRow :=
  if jsTruthy workerSecret && !(header == workerSecret) then
    (.unauthorized, docs)
  else if !(jsTruthy p.document_id) then
    (.badRequest "document_id is required", docs)
  else if jsTruthy p.status && !(validStatuses.contains (p.status.getD "")) then
    (.badRequest "Invalid status", docs)
  else
    (.ok "Document status updated",
     docs.map (fun d => if d.id == p.document_id.getD "" then applyUpdate p now d else d))

/-- The combined validation condition under which the webhook performs no
update: bad shared secret, missing document id, or invalid status. -/
def procRejects (workerSecret header : Option String) (p : ProcPayload) : Bool :=
  (jsTruthy workerSecret && !(header == workerSecret))
  || !(jsTruthy p.document_id)
  || (jsTruthy p.status && !(validStatuses.contains (p.status.getD "")))

/-! ### Rate limiter (src/lib/rate-limit.ts) -/

/-- A sliding-window limiter as constructed in the source: so many
requests per window. -/
structure Limiter where
  requests : Nat
  windowSeconds : Nat
  deriving DecidableEq, Repr

/-- `uploadRateLimiter`: 10 per hour, or no limiter when the cache is
unconfigured. -/
def uploadRateLimiter (redisConfigured : Bool) : Option Limiter :=
  if redisConfigured then some ⟨10, 3600⟩ else none

/-- `queryRateLimiter`: 100 per hour, or no limiter when the cache is
unconfigured. -/
def queryRateLimiter (redisConfigured : Bool) : Option Limiter :=
  if redisConfigured then some ⟨100, 3600⟩ else none

/-- The operation classes. -/
inductive OpType
  | upload
  | query
  deriving DecidableEq, Repr

/-- Outcome of `limiter.limit(userId)`: a result, or a thrown error. -/
inductive LimiterOutcome
  | result (success : Bool) (limit remaining reset : Nat)
  | throws
  deriving DecidableEq, Repr

/-- `checkRateLimit(userId, type)`: picks the limiter for the operation
class; with no limiter, or when the limit call throws, the request is
allowed. -/
def checkRateLimit (_userId : String) (type : OpType) (redisConfigured : Bool)
    (outcome : LimiterOutcome) : RateLimitResult :=
  let limiter := match type with
    | .upload => uploadRateLimiter redisConfigured
    | .query => queryRateLimiter redisConfigured
  match limiter with
  | none => ⟨true, none, none, none⟩
  | some _ =>
    match outcome with
    | .result s l r t => ⟨s, some l, some r, some t⟩
    | .throws => ⟨true, none, none, none⟩

/-! ### Specification-side predicates and concrete instances -/

/-- The shape of a numeric token as the specification describes it: a
non-empty digit run, an optional decimal part (a dot followed by at least
one digit), and an optional magnitude/percent suffix. -/
def NumericShape (t : List Char) : Prop :=
  ∃ ds dec suf, t = ds ++ dec ++ suf ∧ ds ≠ [] ∧ (∀ c ∈ ds, c.isDigit) ∧
    (dec = [] ∨ ∃ es, dec = '.' :: es ∧ es ≠ [] ∧ ∀ c ∈ es, c.isDigit) ∧
    (suf = [] ∨ lower suf ∈ numSuffixes)

/-- A failed rate-limit check as `checkRateLimit` reports it. -/
def rlFailResult : RateLimitResult := ⟨false, some 100, some 0, some 1234567⟩

/-- A passing rate-limit check. -/
def rlOkResult : RateLimitResult := ⟨true, some 100, some 99, some 1234567⟩

/-- A concrete rate-limited query request. -/
def rateLimitedEnv : QueryEnv :=
  { clerkId := some "clerk-1", rateLimit := rlFailResult, query := some "hello"
    documentIds := none, user := none, searchResults := []
    genAnswer := "", genTokens := 0, fileName := fun _ => none, latencyMs := 5 }

/-- A concrete valid query request whose vector search returns nothing. -/
def zeroResultsEnv : QueryEnv :=
  { clerkId := some "clerk-1", rateLimit := rlOkResult, query := some " what is x "
    documentIds := none, user := some ⟨"u-1", "clerk-1", "a@b.c"⟩, searchResults := []
    genAnswer := "", genTokens := 0, fileName := fun _ => none, latencyMs := 7 }

/-- A concrete valid query request with one strong search hit and an answer
the hallucination heuristic does not flag. -/
def oneResultEnv : QueryEnv :=
  { clerkId := some "clerk-1", rateLimit := rlOkResult, query := some "what is alpha"
    documentIds := some ["d-1"], user := some ⟨"u-1", "clerk-1", "a@b.c"⟩
    searchResults := [⟨9/10, ⟨"d-1", "c-1", "alpha beta", some 2⟩⟩]
    genAnswer := "alpha beta", genTokens := 4, fileName := fun _ => none, latencyMs := 9 }

/-- A concrete upload request whose file is one byte over the limit. -/
def bigFileEnv : UploadEnv :=
  { clerkId := some "clerk-2", rateLimit := rlOkResult
    file := some ⟨"big.pdf", MAX_FILE_SIZE + 1, "application/pdf"⟩
    existingUser := none, clerkUser := none, newUserId := "u-2"
    storageUrl := "s://x", docId := "doc-9", workerConfigured := false }

/-- A concrete valid upload request from a caller with no user row whose
identity provider supplies an email address. -/
def freshUserEnv : UploadEnv :=
  { clerkId := some "clerk-3", rateLimit := rlOkResult
    file := some ⟨"a.pdf", 1000, "application/pdf"⟩
    existingUser := none, clerkUser := some ⟨["e@x.io"], some "Ann", none, none⟩
    newUserId := "u-3", storageUrl := "s://y", docId := "doc-3", workerConfigured := true }

/-- A concrete users table with two distinct users. -/
def twoUsersTable : List UserRow :=
  [⟨"u-1", "clerk-1", "a@b.c"⟩, ⟨"u-2", "clerk-2", "b@b.c"⟩]

/-- A concrete documents table: one document per user. -/
def twoDocsTable : List ListDocRow :=
  [ ⟨"d-1", "u-1", "f1.pdf", 10, "application/pdf", "ready", "s://1", some 2, 100, 100, none⟩
  , ⟨"d-2", "u-2", "f2.pdf", 20, "application/pdf", "ready", "s://2", some 3, 200, 200, none⟩ ]

/-- A concrete relational state for the deletion handler: the document
`d-1` owned by `u-1`, one of its chunks, and a chunk of another document. -/
def delState : DBState :=
  ⟨[⟨"d-1", "u-1", "f1.pdf", 10, "application/pdf", "ready", "s://1", some 2, 100, 100, none⟩],
   [⟨"ch-1", "d-1"⟩, ⟨"ch-2", "d-2"⟩]⟩

/-! ## Theorems -/

/-- Boolean prefix test as an existential. -/
theorem isPrefixOf_iff (l₁ l₂ : List Char) :
    l₁.isPrefixOf l₂ = true ↔ ∃ t, l₂ = l₁ ++ t := by
  induction l₁ generalizing l₂ with
  | nil => simp [List.isPrefixOf]
  | cons a as ih =>
    cases l₂ with
    | nil => simp [List.isPrefixOf]
    | cons b bs =>
      simp only [List.isPrefixOf, Bool.and_eq_true, beq_iff_eq, ih, List.cons_append,
        List.cons_eq_cons]
      constructor
      · rintro ⟨rfl, t, rfl⟩
        exact ⟨t, rfl, rfl⟩
      · rintro ⟨t, rfl, rfl⟩
        exact ⟨rfl, t, rfl⟩

/-- Boolean substring test as the segment predicate. -/
theorem containsSub_iff (hay needle : List Char) :
    containsSub hay needle = true ↔ SubSeg needle hay := by
  induction hay with
  | nil =>
    simp only [containsSub, List.isEmpty_iff, SubSeg]
    constructor
    · rintro rfl
      exact ⟨[], [], rfl⟩
    · rintro ⟨pre, post, h⟩
      rcases List.append_eq_nil.mp h.symm with ⟨h1, h2⟩
      rcases List.append_eq_nil.mp h1 with ⟨-, h3⟩
      exact h3
  | cons h t ih =>
    simp only [containsSub, Bool.or_eq_true, isPrefixOf_iff, ih]
    constructor
    · rintro (⟨t', ht⟩ | ⟨pre, post, hp⟩)
      · exact ⟨[], t', by simpa using ht⟩
      · exact ⟨h :: pre, post, by simp [hp]⟩
    · rintro ⟨pre, post, hp⟩
      cases pre with
      | nil => exact Or.inl ⟨post, by simpa using hp⟩
      | cons x xs =>
        right
        simp only [List.cons_append, List.cons_eq_cons] at hp
        exact ⟨xs, post, hp.2⟩

/-- Boolean substring test, negative form. -/
theorem containsSub_eq_false (hay needle : List Char) :
    containsSub hay needle = false ↔ ¬ SubSeg needle hay := by
  rw [← containsSub_iff]
  cases containsSub hay needle <;> simp

/-- The decimal group matched by `tryDecimal` is empty or a dot followed by
at least one digit. -/
theorem tryDecimal_shape (l : List Char) :
    (tryDecimal l).1 = [] ∨
      ∃ es, (tryDecimal l).1 = '.' :: es ∧ es ≠ [] ∧ ∀ c ∈ es, c.isDigit := by
  cases l with
  | nil => simp [tryDecimal]
  | cons c rest =>
    by_cases hc : c = '.'
    · subst hc
      by_cases hd : (rest.takeWhile Char.isDigit).isEmpty = true
      · simp [tryDecimal, hd]
      · right
        refine ⟨rest.takeWhile Char.isDigit, ?_, ?_, ?_⟩
        · simp [tryDecimal, hd]
        · simpa [List.isEmpty_iff] using hd
        · intro x hx
          exact List.mem_takeWhile_imp hx
    · left
      cases rest <;> simp [tryDecimal, hc]

/-- The suffix group matched by `trySuffix` is empty or lowercases to one
of the suffix alternatives. -/
theorem trySuffix_shape (l : List Char) :
    (trySuffix l).1 = [] ∨ lower (trySuffix l).1 ∈ numSuffixes := by
  unfold trySuffix
  cases hf : numSuffixes.find? (fun s => s.isPrefixOf (lower l)) with
  | none => simp
  | some s =>
    right
    have hmem := List.mem_of_find?_eq_some hf
    have hp := List.find?_some hf
    rw [isPrefixOf_iff] at hp
    obtain ⟨t, ht⟩ := hp
    have hls : lower (l.take s.length) = s := by
      rw [lower, List.map_take, ← lower]
      show (lower l).take s.length = s
      rw [ht, List.take_left]
    simpa [hls] using hmem

/-- A token matched at a digit has the numeric shape. -/
theorem matchNumToken_shape (c : Char) (cs : List Char) (hc : c.isDigit = true) :
    NumericShape (matchNumToken (c :: cs)).1 := by
  refine ⟨(c :: cs).takeWhile Char.isDigit,
    (tryDecimal ((c :: cs).dropWhile Char.isDigit)).1,
    (trySuffix (tryDecimal ((c :: cs).dropWhile Char.isDigit)).2).1,
    by simp [matchNumToken], ?_, ?_, ?_, ?_⟩
  · simp [List.takeWhile_cons, hc]
  · intro x hx
    exact List.mem_takeWhile_imp hx
  · exact tryDecimal_shape _
  · exact trySuffix_shape _

/-- Every token the scanner emits has the numeric shape. -/
theorem scanTokensAux_shape (fuel : Nat) (l tok : List Char)
    (h : tok ∈ scanTokensAux fuel l) : NumericShape tok := by
  induction fuel generalizing l with
  | zero => simp [scanTokensAux] at h
  | succ fuel ih =>
    cases l with
    | nil => simp [scanTokensAux] at h
    | cons c cs =>
      by_cases hc : c.isDigit = true
      · rw [scanTokensAux] at h
        simp only [hc, if_true, List.mem_cons] at h
        rcases h with h | h
        · exact h ▸ matchNumToken_shape c cs hc
        · exact ih _ h
      · rw [scanTokensAux] at h
        simp only [hc, if_false, Bool.false_eq_true] at h
        exact ih _ h

/-- C2: the hallucination heuristic fires exactly when some numeric token
of the answer does not occur (case-insensitively) as a substring of the
space-joined lowercased context, or some absolute-certainty word occurs in
the lowercased answer but not in that context; and every extracted numeric
token is a digit run with an optional decimal part and an optional
percent/magnitude suffix. -/
theorem hallucination_detector_spec (answer : List Char) (contexts : List (List Char)) :
    (detectPotentialHallucination answer contexts = true ↔
      (∃ num ∈ scanTokens answer,
        ¬ SubSeg (lower num) (joinSpace (contexts.map lower))) ∨
      (∃ w ∈ strongAssertions,
        SubSeg w (lower answer) ∧ ¬ SubSeg w (joinSpace (contexts.map lower)))) ∧
    (∀ tok ∈ scanTokens answer, NumericShape tok) := by
  constructor
  · simp [detectPotentialHallucination, List.any_eq_true, containsSub_iff,
      containsSub_eq_false]
  · intro tok htok
    exact scanTokensAux_shape _ _ tok htok

/-- Updating a row never changes its primary key. -/
theorem applyUpdate_id (p : ProcPayload) (now : Nat) (d : ProcDocRow) :
    (applyUpdate p now d).id = d.id := rfl

/-- Re-applying the same field-wise update overwrites it: the second
application at time `t2` yields the same row as a single application at
`t2`. -/
theorem applyUpdate_applyUpdate (p : ProcPayload) (t1 t2 : Nat) (d : ProcDocRow) :
    applyUpdate p t2 (applyUpdate p t1 d) = applyUpdate p t2 d := by
  unfold applyUpdate
  cases pst : p.status with
  | none =>
    cases hc : p.chunk_count <;> cases he : jsTruthy p.error_message <;>
      simp [pst, hc, he, jsTruthy]
  | some s =>
    by_cases hs : s = "" <;>
      cases hc : p.chunk_count <;> cases he : jsTruthy p.error_message <;>
        simp [pst, hc, he, hs, jsTruthy]

/-- The table returned by the webhook: unchanged on a validation failure,
otherwise the matching rows updated. -/
theorem processPOST_snd (sec hdr : Option String) (p : ProcPayload) (now : Nat)
    (docs : List ProcDocRow) :
    (processPOST sec hdr p now docs).2 =
      if procRejects sec hdr p then docs
      else docs.map (fun d =>
        if d.id == p.document_id.getD "" then applyUpdate p now d else d) := by
  unfold processPOST procRejects
  cases h1 : jsTruthy sec && !(hdr == sec) <;>
    cases h2 : jsTruthy p.document_id <;>
      cases h3 : jsTruthy p.status && !(validStatuses.contains (p.status.getD "")) <;>
        simp [h1, h2, h3]

/-- C7: the processing webhook is idempotent. For every shared-secret
configuration, header, status-update payload and pair of receipt times,
applying the same update twice in succession leaves the documents table in
the same state as applying it once. -/
theorem process_webhook_idempotent (sec hdr : Option String) (p : ProcPayload)
    (t1 t2 : Nat) (docs : List ProcDocRow) :
    (processPOST sec hdr p t2 (processPOST sec hdr p t1 docs).2).2 =
      (processPOST sec hdr p t2 docs).2 := by
  rw [processPOST_snd, processPOST_snd, processPOST_snd]
  cases hr : procRejects sec hdr p with
  | true => simp
  | false =>
    simp only [Bool.false_eq_true, if_false, List.map_map]
    apply List.map_congr_left
    intro d _
    by_cases hd : (d.id == p.document_id.getD "") = true
    · simp [Function.comp, hd, applyUpdate_id, applyUpdate_applyUpdate]
    · simp [Function.comp, hd]

/-- C9: the rate limiter fails open. For every user and operation class, if
the cache is unconfigured (no limiter constructed) or the limit check
throws, `checkRateLimit` reports success. -/
theorem rate_limiter_fails_open (uid : String) (type : OpType)
    (redisConfigured : Bool) (outcome : LimiterOutcome)
    (h : redisConfigured = false ∨ outcome = .throws) :
    (checkRateLimit uid type redisConfigured outcome).success = true := by
  rcases h with h | h
  · subst h
    cases type <;> cases outcome <;>
      simp [checkRateLimit, uploadRateLimiter, queryRateLimiter]
  · subst h
    cases type <;> cases redisConfigured <;>
      simp [checkRateLimit, uploadRateLimiter, queryRateLimiter]

/-- Witness for C9: a query-class check against an unconfigured cache, with
the underlying limit call additionally throwing, is allowed. -/
theorem rate_limiter_fails_open_witness :
    (checkRateLimit "user-1" .query false .throws).success = true :=
  rate_limiter_fails_open "user-1" .query false .throws (Or.inl rfl)

/-- C5: for an authenticated, non-rate-limited upload request that carries a
file, a file strictly over the 50 MB limit draws the size-exceeded 400 with
no side effect at all, and an in-limit file with a MIME type outside the
allow-list draws the type-rejected 400 with no side effect at all: no
storage write and no document row in either case. -/
theorem upload_validation_rejects (env : UploadEnv) (cid : String) (f : FileInfo)
    (hauth : env.clerkId = some cid) (hrl : env.rateLimit.success = true)
    (hfile : env.file = some f) :
    (f.size > MAX_FILE_SIZE →
      uploadPOST env = (.badRequest uploadSizeErrorMsg, [])) ∧
    (f.size ≤ MAX_FILE_SIZE → f.mime ∉ ALLOWED_FILE_TYPES →
      uploadPOST env = (.badRequest uploadTypeErrorMsg, [])) := by
  constructor
  · intro hsize
    simp [uploadPOST, hauth, hrl, hfile, hsize]
  · intro hsize htype
    have hgt : ¬ f.size > MAX_FILE_SIZE := by omega
    simp [uploadPOST, hauth, hrl, hfile, hgt, htype]

/-- Witness for C5: a 50 MB + 1 byte PDF is rejected with the size error and
an empty effect trace. -/
theorem upload_validation_rejects_witness :
    uploadPOST bigFileEnv = (.badRequest uploadSizeErrorMsg, []) :=
  (upload_validation_rejects bigFileEnv "clerk-2"
      ⟨"big.pdf", MAX_FILE_SIZE + 1, "application/pdf"⟩ rfl rfl rfl).1
    (by show MAX_FILE_SIZE + 1 > MAX_FILE_SIZE; omega)

/-- C10: for an authenticated, non-rate-limited upload request that passes
size and type validation but whose caller has no user row yet: if the
identity provider yields no (truthy) email address, the handler fails with
the 400 email error and performs no storage write, no user insert and no
document insert; if it yields an email, the user row is inserted with that
email strictly before the storage write and the document insert. -/
theorem upload_lazy_user_creation (env : UploadEnv) (cid : String) (f : FileInfo)
    (hauth : env.clerkId = some cid) (hrl : env.rateLimit.success = true)
    (hfile : env.file = some f) (hsize : ¬ f.size > MAX_FILE_SIZE)
    (htype : f.mime ∈ ALLOWED_FILE_TYPES) (hnouser : env.existingUser = none) :
    (jsTruthy (clerkEmailOpt env) = false →
      uploadPOST env = (.badRequest uploadEmailErrorMsg, [])) ∧
    (∀ e, clerkEmailOpt env = some e → e ≠ "" →
      uploadPOST env =
        (.ok env.docId "processing" "Document uploaded successfully and is being processed.",
         [.userInsert cid e ((env.clerkUser.map clerkDisplayName).getD none),
          .storageWrite env.newUserId f.name,
          .docInsert env.newUserId f.name f.size f.mime env.storageUrl "processing"]
         ++ (if env.workerConfigured then [.workerNotify env.docId] else []))) := by
  constructor
  · intro hemail
    simp [uploadPOST, hauth, hrl, hfile, hsize, htype, hnouser, hemail]
  · intro e he hne
    simp [uploadPOST, uploadProceed, hauth, hrl, hfile, hsize, htype, hnouser, he,
      jsTruthy, hne]

/-- Witness for C10: a fresh caller whose provider email is `e@x.io` gets a
success response, with the user insert first in the effect trace, before
the storage write. -/
theorem upload_lazy_user_creation_witness :
    uploadPOST freshUserEnv =
      (.ok "doc-3" "processing" "Document uploaded successfully and is being processed.",
       [.userInsert "clerk-3" "e@x.io" (some "Ann"),
        .storageWrite "u-3" "a.pdf",
        .docInsert "u-3" "a.pdf" 1000 "application/pdf" "s://y" "processing",
        .workerNotify "doc-3"]) := by
  have h := (upload_lazy_user_creation freshUserEnv "clerk-3"
      ⟨"a.pdf", 1000, "application/pdf"⟩ rfl rfl rfl (by decide) (by decide) rfl).2
    "e@x.io" rfl (by decide)
  simpa [freshUserEnv, clerkDisplayName, jsTruthy] using h

/-- Counterexample for C8: at a concrete rate-limited query request (the
limiter reports `remaining = 0`, `reset = 1234567`), the 429 body the query
handler produces does not carry the reset-time hint, contrary to the claim
that it carries both hints. -/
theorem query_rate_limit_reset_missing :
    ¬ (∃ body, (queryPOST rateLimitedEnv).1 = .rateLimited body ∧
        body.remaining.isSome = true ∧ body.reset.isSome = true) := by
  intro ⟨body, hbody, _, hreset⟩
  have : body = ⟨"Rate limit exceeded. Please try again later.", some 0, none⟩ := by
    have h : (queryPOST rateLimitedEnv).1 =
        QueryResponse.rateLimited ⟨"Rate limit exceeded. Please try again later.", some 0, none⟩ := by
      rfl
    rw [h] at hbody
    cases hbody
    rfl
  subst this
  simp at hreset

/-- C8 (amended): for every query request that is authenticated but whose
rate-limit check fails, the handler responds with the 429 rate-limited
error carrying the remaining-quota hint (the reset-time hint is not
included in the body), and performs no embedding, search, generation or
persistence: the effect trace is empty. -/
theorem query_rate_limited_response (env : QueryEnv) (cid : String)
    (hauth : env.clerkId = some cid) (hrl : env.rateLimit.success = false) :
    (queryPOST env).1 =
      .rateLimited ⟨"Rate limit exceeded. Please try again later.",
        env.rateLimit.remaining, none⟩ ∧
    (queryPOST env).2 = [] := by
  constructor <;> simp [queryPOST, hauth, hrl]

/-- Witness for C8 (amended): the concrete rate-limited request yields the
429 with `remaining = some 0`, no reset hint, and an empty effect trace. -/
theorem query_rate_limited_response_witness :
    (queryPOST rateLimitedEnv).1 =
      .rateLimited ⟨"Rate limit exceeded. Please try again later.", some 0, none⟩ ∧
    (queryPOST rateLimitedEnv).2 = [] :=
  query_rate_limited_response rateLimitedEnv "clerk-1" rfl rfl

/-- C4: for every authenticated, non-rate-limited, valid query whose vector
search returns zero results, the handler persists a `queries` row with the
fixed canned answer, confidence `Low`, empty sources and token count `0`,
and streams the canned answer's words (each followed by a space) followed
by the trailing `__SOURCES__:[]` and `__CONFIDENCE__:Low` marker lines. -/
theorem query_zero_results (env : QueryEnv) (cid : String) (q : String) (u : UserRow)
    (hauth : env.clerkId = some cid) (hrl : env.rateLimit.success = true)
    (hq : env.query = some q) (hqne : (jsTrim q).length ≠ 0)
    (huser : env.user = some u) (hempty : env.searchResults = []) :
    queryPOST env =
      (.stream (String.join ((splitSpace noResultsAnswer).map (· ++ " "))
          ++ "\n\n__SOURCES__:[]\n__CONFIDENCE__:Low\n"),
       [.embed (jsTrim q), .search u.id,
        .persist { userId := u.id, query := jsTrim q, answer := noResultsAnswer
                   sources := [], confidence := .Low, tokenCount := 0
                   latencyMs := env.latencyMs
                   documentIds := env.documentIds.getD [] }]) := by
  simp [queryPOST, hauth, hrl, hq, hqne, huser, hempty, streamBody, Confidence.asString,
    String.append_assoc]

/-- Witness for C4: a concrete valid query with no search hits produces
exactly the canned stream and the canned persisted row. -/
theorem query_zero_results_witness :
    queryPOST zeroResultsEnv =
      (.stream (String.join ((splitSpace noResultsAnswer).map (· ++ " "))
          ++ "\n\n__SOURCES__:[]\n__CONFIDENCE__:Low\n"),
       [.embed "what is x", .search "u-1",
        .persist { userId := "u-1", query := "what is x", answer := noResultsAnswer
                   sources := [], confidence := .Low, tokenCount := 0
                   latencyMs := 7, documentIds := [] }]) := by
  have h := query_zero_results zeroResultsEnv "clerk-1" " what is x "
    ⟨"u-1", "clerk-1", "a@b.c"⟩ rfl rfl rfl (by decide) rfl rfl
  simpa [zeroResultsEnv] using h

/-- C1: for every authenticated, non-rate-limited, valid query with a
non-empty retrieved set, the confidence label persisted in the `queries`
row and embedded in the streamed confidence marker is the same label,
determined exactly as: `Low` unconditionally if the hallucination
heuristic fired on the answer, otherwise `High` if the mean similarity is
at least 0.85, `Medium` if it is at least 0.70, and `Low` otherwise. -/
theorem query_confidence_label (env : QueryEnv) (cid : String) (q : String) (u : UserRow)
    (hauth : env.clerkId = some cid) (hrl : env.rateLimit.success = true)
    (hq : env.query = some q) (hqne : (jsTrim q).length ≠ 0)
    (huser : env.user = some u) (hne : env.searchResults ≠ []) :
    ∃ row : QueryRow,
      (queryPOST env).2 =
        [.embed (jsTrim q), .search u.id, .generate (jsTrim q), .persist row] ∧
      (queryPOST env).1 =
        .stream (streamBody env.genAnswer (jsonStringifySources row.sources)
          row.confidence) ∧
      row.confidence =
        (if detectPotentialHallucination env.genAnswer.data
              ((env.searchResults.map (·.payload.content)).map String.data) = true
         then Confidence.Low
         else if ragMean env.searchResults ≥ 85/100 then Confidence.High
         else if ragMean env.searchResults ≥ 7/10 then Confidence.Medium
         else Confidence.Low) := by
  have hne' : env.searchResults.isEmpty = false := by
    cases h : env.searchResults with
    | nil => exact absurd h hne
    | cons a l => rfl
  refine ⟨{ userId := u.id, query := jsTrim q, answer := env.genAnswer
            sources := env.searchResults.map (mkSource env.fileName)
            confidence :=
              if detectPotentialHallucination env.genAnswer.data
                  ((env.searchResults.map (·.payload.content)).map String.data)
              then .Low else getConfidenceLevel (ragMean env.searchResults)
            tokenCount := env.genTokens, latencyMs := env.latencyMs
            documentIds := env.documentIds.getD [] }, ?_, ?_, ?_⟩
  · simp [queryPOST, hauth, hrl, hq, hqne, huser, hne', List.map_map]
  · simp [queryPOST, hauth, hrl, hq, hqne, huser, hne', List.map_map]
  · cases detectPotentialHallucination env.genAnswer.data
        ((env.searchResults.map (·.payload.content)).map String.data) <;>
      simp [getConfidenceLevel]

/-- Witness for C1: the concrete one-hit query (mean similarity 0.9, no
heuristic trigger) persists and streams the label `High`. -/
theorem query_confidence_label_witness :
    ∃ row : QueryRow,
      (queryPOST oneResultEnv).2 =
        [.embed "what is alpha", .search "u-1", .generate "what is alpha", .persist row] ∧
      (queryPOST oneResultEnv).1 =
        .stream (streamBody oneResultEnv.genAnswer (jsonStringifySources row.sources)
          row.confidence) ∧
      row.confidence =
        (if detectPotentialHallucination oneResultEnv.genAnswer.data
              ((oneResultEnv.searchResults.map (·.payload.content)).map String.data) = true
         then Confidence.Low
         else if ragMean oneResultEnv.searchResults ≥ 85/100 then Confidence.High
         else if ragMean oneResultEnv.searchResults ≥ 7/10 then Confidence.Medium
         else Confidence.Low) := by
  have h := query_confidence_label oneResultEnv "clerk-1" "what is alpha"
    ⟨"u-1", "clerk-1", "a@b.c"⟩ rfl rfl rfl (by decide) rfl (by decide)
  simpa [oneResultEnv] using h

/-- Every row the listing query selects belongs to the requested owner. -/
theorem listSelectedRows_owner (docsTable : List ListDocRow) (userId : String)
    (page limit : Nat) (d : ListDocRow)
    (hd : d ∈ listSelectedRows docsTable userId page limit) :
    d.userId = userId := by
  unfold listSelectedRows at hd
  have h1 := List.mem_of_mem_take hd
  have h2 := List.mem_of_mem_drop h1
  rw [List.mem_mergeSort] at h2
  have h3 := List.of_mem_filter h2
  simpa using h3

/-- C3: listing documents is scoped to the caller. For every users table,
documents table, identity token resolving to user `u`, page and limit, the
listing response is exactly the formatted page of rows selected for
`u.id`, every selected row is owned by `u`, and no selected row is owned by
any distinct user. -/
theorem listing_owner_scoped (usersTable : List UserRow) (docsTable : List ListDocRow)
    (cid : String) (u : UserRow) (page limit : Nat)
    (huser : userForClerk usersTable cid = some u) :
    documentsGET usersTable docsTable (some cid) page limit =
      .ok ((listSelectedRows docsTable u.id page limit).map formatDoc) page limit ∧
    (∀ d ∈ listSelectedRows docsTable u.id page limit, d.userId = u.id) ∧
    (∀ v : UserRow, v.id ≠ u.id →
      ∀ d ∈ listSelectedRows docsTable u.id page limit, d.userId ≠ v.id) := by
  refine ⟨by simp [documentsGET, huser], ?_, ?_⟩
  · intro d hd
    exact listSelectedRows_owner docsTable u.id page limit d hd
  · intro v hv d hd
    rw [listSelectedRows_owner docsTable u.id page limit d hd]
    exact fun h => hv h.symm

/-- Witness for C3: with two users owning one document each, `clerk-1`'s
listing at page 1, limit 20 contains only documents owned by `u-1`, and
none owned by the distinct user `u-2`. -/
theorem listing_owner_scoped_witness :
    documentsGET twoUsersTable twoDocsTable (some "clerk-1") 1 20 =
      .ok ((listSelectedRows twoDocsTable "u-1" 1 20).map formatDoc) 1 20 ∧
    (∀ d ∈ listSelectedRows twoDocsTable "u-1" 1 20, d.userId = "u-1") ∧
    (∀ v : UserRow, v.id ≠ "u-1" →
      ∀ d ∈ listSelectedRows twoDocsTable "u-1" 1 20, d.userId ≠ v.id) :=
  listing_owner_scoped twoUsersTable twoDocsTable "clerk-1"
    ⟨"u-1", "clerk-1", "a@b.c"⟩ 1 20 (by decide)

/-- C6: deletion verifies ownership first and guarantees relational
cleanup. For a document id owned by the caller, the handler reports
success and removes the document row and every chunk row of that document,
for every combination of storage-deletion and vector-deletion failures;
for an id that does not exist or is owned by another user, it responds 404
and changes nothing. -/
theorem delete_document_behavior (usersTable : List UserRow) (cid docId : String)
    (u : UserRow) (st : DBState) (sThrows vThrows : Bool)
    (huser : userForClerk usersTable cid = some u) :
    ((∃ d ∈ st.documentsTable, d.id = docId ∧ d.userId = u.id) →
      ∃ st' evs,
        documentsDELETE usersTable (some cid) (some docId) sThrows vThrows st =
          (.ok "Document deleted successfully", st', evs) ∧
        (∀ d ∈ st'.documentsTable, d.id ≠ docId) ∧
        (∀ c ∈ st'.chunksTable, c.documentId ≠ docId) ∧
        (∀ d ∈ st.documentsTable, d.id ≠ docId → d ∈ st'.documentsTable)) ∧
    ((¬ ∃ d ∈ st.documentsTable, d.id = docId ∧ d.userId = u.id) →
      documentsDELETE usersTable (some cid) (some docId) sThrows vThrows st =
        (.notFound "Document not found", st, [])) := by
  constructor
  · intro ⟨d, hd, hid, huid⟩
    have hmem : d ∈ st.documentsTable.filter
        (fun d => d.id == docId && d.userId == u.id) := by
      rw [List.mem_filter]
      exact ⟨hd, by simp [hid, huid]⟩
    have hne : st.documentsTable.filter
        (fun d => d.id == docId && d.userId == u.id) ≠ [] :=
      List.ne_nil_of_mem hmem
    obtain ⟨doc, hdoc⟩ := Option.ne_none_iff_exists'.mp
      (fun h => hne (List.head?_eq_none_iff.mp h))
    refine ⟨⟨st.documentsTable.filter (fun d => !(d.id == docId)),
             st.chunksTable.filter (fun c => !(c.documentId == docId))⟩,
            [DelEvent.storageDelete doc.storageUrl, DelEvent.vectorDelete u.id docId],
            ?_, ?_, ?_, ?_⟩
    · simp [documentsDELETE, huser, hdoc]
    · intro x hx
      have := List.of_mem_filter hx
      simpa using this
    · intro c hc
      have := List.of_mem_filter hc
      simpa using this
    · intro x hx hne
      rw [List.mem_filter]
      exact ⟨hx, by simpa using hne⟩
  · intro hno
    have hnil : st.documentsTable.filter
        (fun d => d.id == docId && d.userId == u.id) = [] := by
      rw [List.filter_eq_nil_iff]
      intro d hd hcond
      exact hno ⟨d, hd, by simpa using hcond⟩
    simp [documentsDELETE, huser, hnil]

/-- Witness for C6: deleting `d-1` as its owner `u-1`, with both external
deletions throwing, still succeeds and leaves no `d-1` row and no `d-1`
chunk; the unrelated chunk of `d-2` survives. -/
theorem delete_document_behavior_witness :
    ∃ st' evs,
      documentsDELETE twoUsersTable (some "clerk-1") (some "d-1") true true delState =
        (.ok "Document deleted successfully", st', evs) ∧
      (∀ d ∈ st'.documentsTable, d.id ≠ "d-1") ∧
      (∀ c ∈ st'.chunksTable, c.documentId ≠ "d-1") ∧
      (∀ d ∈ delState.documentsTable, d.id ≠ "d-1" → d ∈ st'.documentsTable) :=
  (delete_document_behavior twoUsersTable "clerk-1" "d-1"
      ⟨"u-1", "clerk-1", "a@b.c"⟩ delState true true (by decide)).1
    ⟨⟨"d-1", "u-1", "f1.pdf", 10, "application/pdf", "ready", "s://1", some 2, 100, 100, none⟩,
      by decide, rfl, rfl⟩

end DocuRAG
